import Mathlib

/-!
Verification of the shutter-sense repository against its natural-language
specification.  The Python sources are shallowly embedded: pure logic is
translated to Lean functions; calls into external libraries (PIL decoding,
the ONNX runtime, the OpenAI client, pandas shuffling) are abstracted as
explicit parameters or as already-decoded data, and every place where the
Python code can raise is modelled with Option/Except.
-/

namespace ShutterSense

/-- A JSON-like value stored in the dictionaries the backend returns.
`nan` models the IEEE NaN that `np.mean` produces on an empty array. -/
inductive Val where
  | int  (n : Int)
  | str  (s : String)
  | rat  (q : ℚ)
  | nan
  deriving DecidableEq, Repr

/-- A Python dict, modelled as an insertion-ordered association list
(Python dicts preserve insertion order). -/
abbrev Dict := List (String × Val)

/-- Keys of a dict, in insertion order. -/
def dkeys (d : Dict) : List String := d.map Prod.fst

/-- Lookup of the first binding of a key, i.e. `d[k]` when the keys are
unique (as they are in every dict this backend builds). -/
def dget (k : String) : Dict → Option Val
  | [] => none
  | (k', v) :: rest => if k' = k then some v else dget k rest

/-- Python dict assignment `d[k] = v`: overwrite the existing binding or append a new
one at the end. -/
def dset (k : String) (v : Val) : Dict → Dict
  | [] => [(k, v)]
  | (k', v') :: rest => if k' = k then (k, v) :: rest else (k', v') :: dset k v rest

/-! ## settings_predictor.py -/

/-- A decoded image, as handed to the predictor after PIL has opened it.
`grayPixels` are the pixel values (0..255) of the grayscale (`L`-mode)
conversion that `_rule_based_prediction` computes via Pillow. -/
structure PImage where
  grayPixels : List ℕ
  deriving DecidableEq, Repr

/-- Mean (`np.mean`) of the grayscale pixels, as an exact rational; `none` models
the NaN that numpy yields on an empty array. -/
def npMean (pixels : List ℕ) : Option ℚ :=
  if pixels.isEmpty then none
  else some ((pixels.map (fun p => (p : ℚ))).sum / pixels.length)

/-- Comparison `x < c` for a possibly-NaN float: every comparison with NaN is false. -/
def nanLt (x : Option ℚ) (c : ℚ) : Bool :=
  match x with
  | some a => decide (a < c)
  | none => false

/-- The `avg_brightness` value placed in the fallback dict (`float(nan)`
stays NaN). -/
def brightnessVal (x : Option ℚ) : Val :=
  match x with
  | some a => .rat a
  | none => .nan

/-- The method `SettingsPredictor._rule_based_prediction`: brightness thresholding on
the grayscale mean. -/
def ruleBasedPrediction (img : PImage) : Dict :=
  let avg := npMean img.grayPixels
  let profile : Int × String × String :=
    if nanLt avg 85 then (1600, "f/2.8", "1/60s")
    else if nanLt avg 170 then (400, "f/5.6", "1/125s")
    else (100, "f/8.0", "1/500s")
  [ ("iso", .int profile.1),
    ("aperture", .str profile.2.1),
    ("shutter_speed", .str profile.2.2),
    ("avg_brightness", brightnessVal avg),
    ("note", .str "Rule-based prediction (ML model not available)") ]

/-- Python `int()` on a (finite) float value: truncation toward zero. -/
def pyTrunc (q : ℚ) : Int :=
  if 0 ≤ q then ⌊q⌋ else -⌊-q⌋

/-- Round to the nearest integer, ties to even — the rounding used by
Python float formatting (`:.1f`), applied to the exact rational. -/
def roundHalfEven (q : ℚ) : Int :=
  let f := ⌊q⌋
  let r := q - f
  if r < 1/2 then f
  else if 1/2 < r then f + 1
  else if f % 2 = 0 then f else f + 1

/-- Format a rational with one decimal place, as `f"{x:.1f}"` does. -/
def fmtF1 (q : ℚ) : String :=
  let n := roundHalfEven (q * 10)
  let sign := if n < 0 then "-" else ""
  let a := n.natAbs
  sign ++ toString (a / 10) ++ "." ++ toString (a % 10)

/-- The body of the `try` block of `SettingsPredictor.predict` after the
ONNX runtime has produced the output vector `outs` (= `outputs[0][0]`).
`none` models the exceptions that block can raise: an index error when the
vector has fewer than three entries, and the `ZeroDivisionError` in
`1 / (outputs[0][0][2] * 8000)`. -/
def onnxParse (outs : List ℚ) : Option Dict := do
  let o0 ← outs.get? 0
  let o1 ← outs.get? 1
  let o2 ← outs.get? 2
  if o2 * 8000 = 0 then none
  else
    let conf : Val := match outs.get? 3 with
      | some o3 => .rat o3
      | none => .rat (4/5)
    some [ ("iso", .int (pyTrunc (o0 * 6400))),
           ("aperture", .str ("f/" ++ fmtF1 (o1 * 22))),
           ("shutter_speed", .str ("1/" ++ toString (pyTrunc (1 / (o2 * 8000))) ++ "s")),
           ("confidence", conf) ]

/-- The ONNX session together with image preprocessing, abstracted: from a
decoded image it either returns the model's output vector `outputs[0][0]`
or raises. -/
abbrev OnnxRun := PImage → Except String (List ℚ)

/-- The fallback call `_rule_based_prediction(image_bytes)` as made on
raw bytes: it begins with its own unguarded `Image.open`, so when the
bytes do not decode it raises instead of returning a dict; only on a
decoded image is it the total `ruleBasedPrediction`. -/
def ruleBasedPredictionRaw (decoded : Except String PImage) : Except String Dict :=
  match decoded with
  | .error e => .error e
  | .ok img => .ok (ruleBasedPrediction img)

/-- The method `SettingsPredictor.predict` on raw image bytes, given the
outcome `decoded` of PIL decoding those bytes.  With a session, a decode
failure aborts `preprocess_image` inside the `try` before inference, and
the `except` handler's fallback call re-raises it; with no session the
fallback runs outside any `try` and propagates it directly.  For
decodable bytes, the fallback is total and is used when there is no
session or anything in the `try` block raises. -/
def predict (session : Option OnnxRun) (decoded : Except String PImage) :
    Except String Dict :=
  match session with
  | none => ruleBasedPredictionRaw decoded
  | some run =>
    match decoded with
    | .error e => ruleBasedPredictionRaw (.error e)
    | .ok img =>
      match run img with
      | .error _ => ruleBasedPredictionRaw (.ok img)
      | .ok outs =>
        match onnxParse outs with
        | none => ruleBasedPredictionRaw (.ok img)
        | some d => .ok d

/-- The ONNX path of `predict` succeeds: a session is loaded, inference
returns, and parsing the outputs raises no exception. -/
def onnxOk (session : Option OnnxRun) (img : PImage) : Prop :=
  ∃ run outs d, session = some run ∧ run img = .ok outs ∧ onnxParse outs = some d

/-! ## llm_advisor.py -/

/-- Python `str.lower()` (the prompts and responses here are ASCII). -/
def pyLower (s : List Char) : List Char := s.map Char.toLower

/-- Python substring containment, `needle in hay`. -/
def strIn (needle : String) (hay : List Char) : Bool :=
  hay.tails.any (fun t => needle.toList.isPrefixOf t)

/-- Python `str.split()`: split on runs of whitespace, dropping empties. -/
def pySplit (s : List Char) : List (List Char) :=
  (s.splitOnP Char.isWhitespace).filter (fun w => !w.isEmpty)

/-- Python `str.isdigit()` restricted to ASCII: nonempty and all digits. -/
def pyIsdigit (w : List Char) : Bool :=
  !w.isEmpty && w.all Char.isDigit

/-- Value of a decimal digit string, `int(word)`. -/
def digitsToNat (w : List Char) : ℕ :=
  w.foldl (fun acc c => 10 * acc + (c.toNat - 48)) 0

/-- The first whitespace-separated word of the response that is all digits
and names one of the seven standard ISO values — the loop in
`_parse_llm_response`. -/
def firstIsoWord (text : List Char) : Option ℕ :=
  ((pySplit text).find? fun w =>
    pyIsdigit w && decide (digitsToNat w ∈ [100, 200, 400, 800, 1600, 3200, 6400])).map
    digitsToNat

/-- A match of the regex `f/(\d+\.?\d*)` starting exactly at the head of
`l`: the captured group, greedily. -/
def tryAp : List Char → Option (List Char)
  | 'f' :: '/' :: rest =>
    let d1 := rest.takeWhile Char.isDigit
    let r1 := rest.dropWhile Char.isDigit
    if d1.isEmpty then none
    else
      match r1 with
      | '.' :: r2 => some (d1 ++ '.' :: r2.takeWhile Char.isDigit)
      | _ => some d1
  | _ => none

/-- Leftmost-match search for the aperture regex: the group of the
leftmost match. -/
def findAp : List Char → Option (List Char)
  | [] => none
  | c :: rest =>
    match tryAp (c :: rest) with
    | some g => some g
    | none => findAp rest

/-- A match of the regex `1/(\d+)` starting exactly at the head of `l`. -/
def trySh : List Char → Option (List Char)
  | '1' :: '/' :: rest =>
    let d := rest.takeWhile Char.isDigit
    if d.isEmpty then none else some d
  | _ => none

/-- Leftmost-match search for the shutter regex: the group of the
leftmost match. -/
def findSh : List Char → Option (List Char)
  | [] => none
  | c :: rest =>
    match trySh (c :: rest) with
    | some g => some g
    | none => findSh rest

/-- The ISO branch of `_parse_llm_response`. -/
def isoStep (text textLower : List Char) (settings : Dict) : Dict :=
  if strIn "iso" textLower then
    match firstIsoWord text with
    | some n => dset "iso" (.int n) settings
    | none => settings
  else settings

/-- The aperture branch of `_parse_llm_response` (the regex runs on the
lowercased text). -/
def apStep (textLower : List Char) (settings : Dict) : Dict :=
  if strIn "f/" textLower || strIn "aperture" textLower then
    match findAp textLower with
    | some g => dset "aperture" (.str ("f/" ++ g.asString)) settings
    | none => settings
  else settings

/-- The shutter-speed branch of `_parse_llm_response` (the regex runs on
the original text). -/
def shStep (text textLower : List Char) (settings : Dict) : Dict :=
  if strIn "shutter" textLower || strIn "1/" text then
    match findSh text with
    | some g => dset "shutter_speed" (.str ("1/" ++ g.asString ++ "s")) settings
    | none => settings
  else settings

/-- The method `LLMAdvisor._parse_llm_response`: keyword extraction of ISO, aperture
and shutter speed from the LLM's free text. -/
def parseLLMResponse (text : List Char) : Dict :=
  let textLower := pyLower text
  shStep text textLower (apStep textLower (isoStep text textLower []))

/-- The method `LLMAdvisor._format_settings`: the current settings rendered as a
comma-separated `key: value` string. -/
def formatSettings (settings : List (String × String)) : String :=
  String.intercalate ", " (settings.map fun kv => kv.1 ++ ": " ++ kv.2)

/-- The prompt mentions a portrait keyword. -/
def portraitMatch (promptLower : List Char) : Bool :=
  ["portrait", "person", "people", "face"].any (fun w => strIn w promptLower)

/-- The prompt mentions a landscape keyword. -/
def landscapeMatch (promptLower : List Char) : Bool :=
  ["landscape", "scenery", "mountain", "nature"].any (fun w => strIn w promptLower)

/-- The prompt mentions an action keyword. -/
def actionMatch (promptLower : List Char) : Bool :=
  ["action", "sport", "fast", "moving", "running"].any (fun w => strIn w promptLower)

/-- The prompt mentions a low-light keyword. -/
def lowLightMatch (promptLower : List Char) : Bool :=
  ["dark", "night", "low light", "indoor"].any (fun w => strIn w promptLower)

/-- The portrait profile of `_rule_based_suggestions`. -/
def portraitProfile : Dict :=
  [ ("iso", .int 400), ("aperture", .str "f/2.8"), ("shutter_speed", .str "1/125s"),
    ("explanation", .str "Portrait settings: Wide aperture (f/2.8) for shallow depth of field, moderate ISO and shutter speed"),
    ("source", .str "rule-based") ]

/-- The landscape profile of `_rule_based_suggestions`. -/
def landscapeProfile : Dict :=
  [ ("iso", .int 100), ("aperture", .str "f/11"), ("shutter_speed", .str "1/60s"),
    ("explanation", .str "Landscape settings: Narrow aperture (f/11) for deep depth of field, low ISO for quality"),
    ("source", .str "rule-based") ]

/-- The action/sports profile of `_rule_based_suggestions`. -/
def actionProfile : Dict :=
  [ ("iso", .int 800), ("aperture", .str "f/4"), ("shutter_speed", .str "1/1000s"),
    ("explanation", .str "Action settings: Fast shutter (1/1000s) to freeze motion, moderate aperture and higher ISO"),
    ("source", .str "rule-based") ]

/-- The low-light profile of `_rule_based_suggestions`. -/
def lowLightProfile : Dict :=
  [ ("iso", .int 1600), ("aperture", .str "f/2.8"), ("shutter_speed", .str "1/60s"),
    ("explanation", .str "Low light settings: High ISO (1600), wide aperture (f/2.8) to gather more light"),
    ("source", .str "rule-based") ]

/-- The default general-purpose profile of `_rule_based_suggestions`. -/
def defaultProfile : Dict :=
  [ ("iso", .int 400), ("aperture", .str "f/5.6"), ("shutter_speed", .str "1/125s"),
    ("explanation", .str "General purpose settings: Balanced settings suitable for most situations"),
    ("source", .str "rule-based") ]

/-- The method `LLMAdvisor._rule_based_suggestions`: fixed profiles selected by
keyword matching on the lowercased prompt (the `current_settings` argument
is accepted but unused, as in the source). -/
def ruleBasedSuggestions (prompt : List Char)
    (_currentSettings : Option (List (String × String))) : Dict :=
  let promptLower := pyLower prompt
  if portraitMatch promptLower then portraitProfile
  else if landscapeMatch promptLower then landscapeProfile
  else if actionMatch promptLower then actionProfile
  else if lowLightMatch promptLower then lowLightProfile
  else defaultProfile

/-- The OpenAI chat call, abstracted: from the system and user messages it
either returns the response text or raises. -/
abbrev LLMCall := String → String → Except String String

/-- The system message of `LLMAdvisor.suggest`, verbatim. -/
def systemMessage : String :=
  "You are an expert photographer and camera settings advisor. \nYour job is to suggest optimal camera settings based on user requests. \nProvide specific values for ISO, aperture (f-stop), shutter speed, and any other relevant parameters.\nAlways explain your reasoning briefly."

/-- The context string built from the optional current settings (an empty
dict is falsy in Python and yields no context). -/
def contextOf (currentSettings : Option (List (String × String))) : String :=
  match currentSettings with
  | some s => if s.isEmpty then "" else "\n\nCurrent settings: " ++ formatSettings s
  | none => ""

/-- The user message of `LLMAdvisor.suggest`, verbatim. -/
def userMessageOf (prompt : List Char)
    (currentSettings : Option (List (String × String))) : String :=
  "User request: " ++ prompt.asString ++ contextOf currentSettings
    ++ "\n\nSuggest optimal camera settings."

/-- The method `LLMAdvisor.suggest`: call the LLM when a client is configured, parse
its answer and tag it `source = llm`; fall back to the rule-based
suggestions when there is no client or the call raises. -/
def suggest (client : Option LLMCall) (prompt : List Char)
    (currentSettings : Option (List (String × String))) : Dict :=
  match client with
  | none => ruleBasedSuggestions prompt currentSettings
  | some call =>
    match call systemMessage (userMessageOf prompt currentSettings) with
    | .error _ => ruleBasedSuggestions prompt currentSettings
    | .ok text =>
      let suggestions := parseLLMResponse text.toList
      let suggestions := dset "explanation" (.str text) suggestions
      let suggestions := dset "source" (.str "llm") suggestions
      suggestions

/-- The LLM path of `suggest` succeeds: a client is configured and the
chat call on the built messages returns. -/
def llmOk (client : Option LLMCall) (prompt : List Char)
    (currentSettings : Option (List (String × String))) : Prop :=
  ∃ call text, client = some call ∧
    call systemMessage (userMessageOf prompt currentSettings) = .ok text

/-! ## ml_training/scripts/preprocess.py -/

/-- A value stored under an EXIF tag, classified by how Python `float()`
treats it: an exact number, a string that parses as a number, a string
that does not, or a rational pair (tuple), on which `float()` raises. -/
inductive ExifVal where
  | num (q : ℚ)
  | numStr (q : ℚ)
  | rawStr (s : String)
  | tup (a b : ℚ)
  deriving DecidableEq, Repr

/-- An EXIF dictionary: tag name to value. -/
abbrev ExifDict := List (String × ExifVal)

/-- Tag lookup in an EXIF dictionary. -/
def elookup (k : String) : ExifDict → Option ExifVal
  | [] => none
  | (k', v) :: rest => if k' = k then some v else elookup k rest

/-- Python `float(v)`: numbers and numeric strings convert, other strings
raise `ValueError`, tuples raise `TypeError` (`none` models the raise). -/
def pyFloat : ExifVal → Option ℚ
  | .num q => some q
  | .numStr q => some q
  | .rawStr _ => none
  | .tup _ _ => none

/-- The tuple-aware conversion used for FNumber, ExposureTime and
FocalLength: `float(v[0]) / float(v[1])` on a tuple (raising
`ZeroDivisionError` when the denominator is zero), plain `float(v)`
otherwise. -/
def exifRatio : ExifVal → Option ℚ
  | .tup a b => if b = 0 then none else some (a / b)
  | v => pyFloat v

/-- One conversion step of `parse_camera_settings`: an absent tag yields
no entry (`.ok none`), a present tag must convert or the surrounding
`try` aborts (`.error ()`). -/
def tagStep (exif : ExifDict) (tag : String) (conv : ExifVal → Option ℚ) :
    Except Unit (Option ℚ) :=
  match elookup tag exif with
  | none => .ok none
  | some v =>
    match conv v with
    | some q => .ok (some q)
    | none => .error ()

/-- The settings `parse_camera_settings` builds: the three required values
and the optional focal length. -/
structure CamSettings where
  iso : ℚ
  aperture : ℚ
  shutter_speed : ℚ
  focal_length : Option ℚ
  deriving DecidableEq, Repr

/-- The function `parse_camera_settings`: convert ISO, aperture, shutter speed and
focal length from the EXIF dict in that order; any conversion error
(`.error` from a step) aborts the `try` block and yields `None`, and so
does a missing required value. -/
def parseCameraSettings (exif : ExifDict) : Option CamSettings :=
  match tagStep exif "ISOSpeedRatings" pyFloat with
  | .error () => none
  | .ok iso =>
    match tagStep exif "FNumber" exifRatio with
    | .error () => none
    | .ok ap =>
      match tagStep exif "ExposureTime" exifRatio with
      | .error () => none
      | .ok sh =>
        match tagStep exif "FocalLength" exifRatio with
        | .error () => none
        | .ok fl =>
          match iso, ap, sh with
          | some i, some a, some s =>
            some { iso := i, aperture := a, shutter_speed := s, focal_length := fl }
          | _, _, _ => none

/-- A row of the dataset CSV built by `create_dataset_from_images`. -/
structure DataRow where
  image_path : String
  iso : ℚ
  aperture : ℚ
  shutter_speed : ℚ
  focal_length : ℚ
  deriving DecidableEq, Repr

/-- The loop body of `create_dataset_from_images` for the listed image
files, each given with the result of `extract_exif_data` (`none` when the
file has no EXIF or extraction failed; an empty dict is falsy and is also
skipped). -/
def createDataset (images : List (String × Option ExifDict)) : List DataRow :=
  images.foldl
    (fun data pe =>
      match pe.2 with
      | none => data
      | some exif =>
        if exif.isEmpty then data
        else
          match parseCameraSettings exif with
          | none => data
          | some s =>
            data ++ [{ image_path := pe.1, iso := s.iso, aperture := s.aperture,
                       shutter_speed := s.shutter_speed,
                       focal_length := s.focal_length.getD 0 }])
    []

/-- A pandas DataFrame, column-oriented: column name to column values (all
numeric here). -/
abbrev DFrame := List (String × List ℚ)

/-- Column access `df[c]`: the (first) column named `c`. -/
def getCol (c : String) : DFrame → Option (List ℚ)
  | [] => none
  | (c', vs) :: rest => if c' = c then some vs else getCol c rest

/-- Column assignment `df[c] = vs`: overwrite the column in place, or append it. -/
def setCol (c : String) (vs : List ℚ) : DFrame → DFrame
  | [] => [(c, vs)]
  | (c', vs') :: rest =>
    if c' = c then (c, vs) :: rest else (c', vs') :: setCol c vs rest

/-- Minimum of a column (`Series.min`); 0 is a junk value for the empty
column, where pandas yields NaN. -/
def colMin : List ℚ → ℚ
  | [] => 0
  | x :: xs => xs.foldl min x

/-- Maximum of a column (`Series.max`); 0 is a junk value for the empty
column. -/
def colMax : List ℚ → ℚ
  | [] => 0
  | x :: xs => xs.foldl max x

/-- The four settings columns `normalize_settings` rescales. -/
def settingsCols : List String := ["iso", "aperture", "shutter_speed", "focal_length"]

/-- Recorded normalization parameters: column name to (min, max). -/
abbrev NormParams := List (String × (ℚ × ℚ))

/-- One iteration of the normalization loop: skip a column absent from
the original frame, otherwise rescale it in the working frame and record
its min and max.  Reads go to the original `df`, as in the source. -/
def normStep (df : DFrame) (st : DFrame × NormParams) (c : String) : DFrame × NormParams :=
  match getCol c df with
  | none => st
  | some vs =>
    let mn := colMin vs
    let mx := colMax vs
    (setCol c (vs.map fun v => (v - mn) / (mx - mn + 1/100000000)) st.1,
     st.2 ++ [(c, (mn, mx))])

/-- The function `normalize_settings`: copy the frame (`df.copy()` makes the working
frame independent of the input), and for each settings column present
rescale it by `(v - min) / (max - min + 1e-8)` while recording the
original min and max. -/
def normalizeSettings (df : DFrame) : DFrame × NormParams :=
  settingsCols.foldl (normStep df) (df, [])

/-- Python `int()` on an exact value: truncation toward zero. -/
def pyInt (q : ℚ) : Int :=
  if 0 ≤ q then ⌊q⌋ else -⌊-q⌋

/-- Normalize a (possibly negative) Python slice bound for a sequence of
length `n`. -/
def pyBound (n : ℕ) (i : Int) : ℕ :=
  min ((if i < 0 then (n : Int) + i else i).toNat) n

/-- Python `l[:b]`. -/
def pySliceTo (l : List α) (b : Int) : List α := l.take (pyBound l.length b)

/-- Python `l[a:]`. -/
def pySliceFrom (l : List α) (a : Int) : List α := l.drop (pyBound l.length a)

/-- Python `l[a:b]`. -/
def pySlice (l : List α) (a b : Int) : List α :=
  (l.take (pyBound l.length b)).drop (pyBound l.length a)

/-- The function `split_dataset`: assert the ratios sum to 1 (within 1e-6, else the
`assert` raises and `none` is returned), shuffle (`df.sample(frac=1)` is
abstracted as the `shuffle` argument), and slice at
`int(n * train_ratio)` and that plus `int(n * val_ratio)`. -/
def splitDataset (shuffle : List α → List α) (df : List α)
    (trainRatio valRatio testRatio : ℚ) :
    Option (List α × List α × List α) :=
  if |trainRatio + valRatio + testRatio - 1| < 1/1000000 then
    let shuffled := shuffle df
    let n := shuffled.length
    let trainEnd := pyInt (n * trainRatio)
    let valEnd := trainEnd + pyInt (n * valRatio)
    some (pySliceTo shuffled trainEnd, pySlice shuffled trainEnd valEnd,
          pySliceFrom shuffled valEnd)
  else none

/-! ## metadata_extractor.py and the `/metadata` endpoint of main.py -/

/-- What PIL's `Image.open` yields for a decodable image: format, mode,
pixel size and the EXIF table (already keyed by tag name; the
`TAGS.get`/byte-decoding loop of the source is a library-table lookup and
is absorbed into this input). -/
structure MetaImage where
  format : Option String
  mode : String
  width : ℕ
  height : ℕ
  exif : ExifDict
  deriving DecidableEq, Repr

/-- Python `str(v)` on an EXIF value; the exact decimal rendering of
floats is not modelled, only that it is some string of the value. -/
def pyStr : ExifVal → String
  | .num q => toString q
  | .numStr s => toString s
  | .rawStr s => s
  | .tup a b => "(" ++ toString a ++ ", " ++ toString b ++ ")"

/-- The `camera_settings` sub-dictionary `extract_metadata` builds.  The
two `:.1f` divisions can raise `ZeroDivisionError`, so the build is
fallible. -/
def buildCameraSettings (exif : ExifDict) : Except String (List (String × String)) := do
  let mut cs : List (String × String) := []
  match elookup "ISOSpeedRatings" exif with
  | some v => cs := cs ++ [("iso", pyStr v)]
  | none => pure ()
  match elookup "FNumber" exif with
  | some (.tup a b) =>
    if b = 0 then throw "division by zero"
    else cs := cs ++ [("aperture", "f/" ++ fmtF1 (a / b))]
  | some v => cs := cs ++ [("aperture", "f/" ++ pyStr v)]
  | none => pure ()
  match elookup "ExposureTime" exif with
  | some (.tup a b) => cs := cs ++ [("shutter_speed", toString a ++ "/" ++ toString b ++ "s")]
  | some v => cs := cs ++ [("shutter_speed", pyStr v ++ "s")]
  | none => pure ()
  match elookup "FocalLength" exif with
  | some (.tup a b) =>
    if b = 0 then throw "division by zero"
    else cs := cs ++ [("focal_length", fmtF1 (a / b) ++ "mm")]
  | some v => cs := cs ++ [("focal_length", pyStr v ++ "mm")]
  | none => pure ()
  match elookup "Make" exif with
  | some v => cs := cs ++ [("camera_make", pyStr v)]
  | none => pure ()
  match elookup "Model" exif with
  | some v => cs := cs ++ [("camera_model", pyStr v)]
  | none => pure ()
  match elookup "LensModel" exif with
  | some v => cs := cs ++ [("lens_model", pyStr v)]
  | none => pure ()
  match elookup "WhiteBalance" exif with
  | some v => cs := cs ++ [("white_balance", pyStr v)]
  | none => pure ()
  pure cs

/-- The metadata dictionary `extract_metadata` returns; the `exif` and
`camera_settings` keys are present only when the image has EXIF data. -/
structure Metadata where
  format : Option String
  mode : String
  width : ℕ
  height : ℕ
  exif : Option ExifDict
  camera_settings : Option (List (String × String))
  deriving DecidableEq, Repr

/-- The function `extract_metadata`: its one library call is `Image.open`, whose
outcome is the argument.  Any failure — of the open or inside the body —
is re-raised as `Exception("Failed to extract metadata: ...")`; there is
no fallback result. -/
def extractMetadata (openResult : Except String MetaImage) : Except String Metadata :=
  match
    (do
      let img ← openResult
      if img.exif.isEmpty then
        pure { format := img.format, mode := img.mode, width := img.width,
               height := img.height, exif := none, camera_settings := none }
      else do
        let cs ← buildCameraSettings img.exif
        pure { format := img.format, mode := img.mode, width := img.width,
               height := img.height, exif := some img.exif,
               camera_settings := some cs } : Except String Metadata)
  with
  | .ok m => .ok m
  | .error e => .error ("Failed to extract metadata: " ++ e)

/-- The `/metadata` endpoint `get_metadata` in main.py: return
`{"success": True, "metadata": ...}`, or turn any exception from
`extract_metadata` into an HTTP 500 with the exception's message. -/
def getMetadata (openResult : Except String MetaImage) : Except (ℕ × String) (Bool × Metadata) :=
  match extractMetadata openResult with
  | .ok m => .ok (true, m)
  | .error e => .error (500, e)

/-! ## Theorems -/

/-- Any successfully parsed ONNX output dictionary has exactly the four
prediction keys, in order. -/
lemma onnxParse_keys {outs : List ℚ} {d : Dict} (h : onnxParse outs = some d) :
    dkeys d = ["iso", "aperture", "shutter_speed", "confidence"] := by
  unfold onnxParse at h
  cases h0 : outs.get? 0 <;> rw [h0] at h <;> simp only [Option.bind_eq_bind,
    Option.none_bind, Option.some_bind] at h
  · exact absurd h (by simp)
  cases h1 : outs.get? 1 <;> rw [h1] at h <;> simp only [Option.none_bind,
    Option.some_bind] at h
  · exact absurd h (by simp)
  cases h2 : outs.get? 2 <;> rw [h2] at h <;> simp only [Option.none_bind,
    Option.some_bind] at h
  · exact absurd h (by simp)
  split at h
  · exact absurd h (by simp)
  · obtain rfl : _ = d := Option.some_injective _ h
    rfl

/-- The keys of the fallback prediction, in order. -/
lemma ruleBasedPrediction_keys (img : PImage) :
    dkeys (ruleBasedPrediction img) =
      ["iso", "aperture", "shutter_speed", "avg_brightness", "note"] := rfl

/-- C4: on a decodable (nonempty) image, `_rule_based_prediction` takes
the mean of the grayscale pixels and returns the dark profile
(ISO 1600, f/2.8, 1/60s) when the mean is below 85, the medium profile
(ISO 400, f/5.6, 1/125s) when it is at least 85 and below 170, and the
bright profile (ISO 100, f/8.0, 1/500s) otherwise, recording the mean
under `avg_brightness`. -/
theorem rule_based_prediction_brightness_profiles (img : PImage)
    (h : img.grayPixels ≠ []) :
    ruleBasedPrediction img =
      (let avg : ℚ := (img.grayPixels.map (fun p => (p : ℚ))).sum / img.grayPixels.length
       let profile : Int × String × String :=
         if avg < 85 then (1600, "f/2.8", "1/60s")
         else if avg < 170 then (400, "f/5.6", "1/125s")
         else (100, "f/8.0", "1/500s")
       [ ("iso", .int profile.1),
         ("aperture", .str profile.2.1),
         ("shutter_speed", .str profile.2.2),
         ("avg_brightness", .rat avg),
         ("note", .str "Rule-based prediction (ML model not available)") ]) := by
  have hne : img.grayPixels.isEmpty = false := by
    simpa [List.isEmpty_iff] using h
  simp only [ruleBasedPrediction, npMean, hne, Bool.false_eq_true, if_false,
    nanLt, brightnessVal, decide_eq_true_eq]

/-- Witness for C4 at a concrete dark image. -/
theorem rule_based_prediction_brightness_profiles_witness :
    (PImage.mk [10, 20, 30]).grayPixels ≠ [] ∧
    ruleBasedPrediction ⟨[10, 20, 30]⟩ =
      [ ("iso", .int 1600), ("aperture", .str "f/2.8"),
        ("shutter_speed", .str "1/60s"), ("avg_brightness", .rat 20),
        ("note", .str "Rule-based prediction (ML model not available)") ] := by
  refine ⟨by decide, ?_⟩
  rw [rule_based_prediction_brightness_profiles ⟨[10, 20, 30]⟩ (by decide)]
  norm_num

/-- Counterexample to C1: on bytes PIL cannot decode, `predict` does not
return the brightness-heuristic dictionary — the fallback itself raises
at its own `Image.open` and the exception propagates, both with no
session loaded and on the except path of a loaded session. -/
theorem predict_propagates_decode_failure :
    predict none (.error "cannot identify image file") =
      .error "cannot identify image file" ∧
    (predict none (.error "cannot identify image file")).isOk = false ∧
    predict (some fun _ => .ok [1, 1, 1])
        (.error "cannot identify image file") =
      .error "cannot identify image file" ∧
    (predict (some fun _ => .ok [1, 1, 1])
        (.error "cannot identify image file")).isOk = false :=
  ⟨rfl, rfl, rfl, rfl⟩

/-- C1 (amended): for every image byte string PIL can decode, `predict`
returns the parsed ONNX prediction (with keys iso, aperture,
shutter_speed, confidence) exactly when a session is loaded and the ONNX
path raises no exception, and otherwise returns the brightness-heuristic
prediction, which carries `avg_brightness` and the not-available note,
propagating no exception; on undecodable bytes both paths propagate the
decode failure, the fallback re-raising it itself. -/
theorem predict_onnx_or_fallback (session : Option OnnxRun) (img : PImage) :
    (¬ onnxOk session img →
      predict session (.ok img) = .ok (ruleBasedPrediction img)) ∧
    (onnxOk session img → ∃ d, predict session (.ok img) = .ok d ∧
      dkeys d = ["iso", "aperture", "shutter_speed", "confidence"] ∧
      d ≠ ruleBasedPrediction img) ∧
    dget "note" (ruleBasedPrediction img) =
      some (.str "Rule-based prediction (ML model not available)") ∧
    dget "avg_brightness" (ruleBasedPrediction img) =
      some (brightnessVal (npMean img.grayPixels)) ∧
    ∀ e : String, predict session (.error e) = .error e := by
  refine ⟨?_, ?_, rfl, rfl, ?_⟩
  · intro hno
    cases session with
    | none => rfl
    | some run =>
      cases hr : run img with
      | error e => simp [predict, hr, ruleBasedPredictionRaw]
      | ok outs =>
        cases hp : onnxParse outs with
        | none => simp [predict, hr, hp, ruleBasedPredictionRaw]
        | some d => exact absurd ⟨run, outs, d, rfl, hr, hp⟩ hno
  · rintro ⟨run, outs, d, rfl, hr, hp⟩
    have hpred : predict (some run) (.ok img) = .ok d := by
      simp only [predict, hr, hp]
    refine ⟨d, hpred, onnxParse_keys hp, ?_⟩
    intro heq
    have h45 := congrArg (fun l => (dkeys l).length) heq
    simp only [onnxParse_keys hp, ruleBasedPrediction_keys, List.length_cons,
      List.length_nil] at h45
    omega
  · intro e
    cases session with
    | none => rfl
    | some run => rfl

/-- Witness for C1 (amended): a sessionless predictor on a decoded image
falls back, a working session yields the four-key ONNX prediction, and a
decode failure propagates. -/
theorem predict_onnx_or_fallback_witness :
    (¬ onnxOk none ⟨[10, 20, 30]⟩ ∧
      predict none (.ok ⟨[10, 20, 30]⟩) = .ok (ruleBasedPrediction ⟨[10, 20, 30]⟩)) ∧
    (onnxOk (some fun _ => .ok [1/4, 1/11, 1/8000]) ⟨[10, 20, 30]⟩ ∧
      ∃ d, predict (some fun _ => .ok [1/4, 1/11, 1/8000]) (.ok ⟨[10, 20, 30]⟩) =
          .ok d ∧
        dkeys d = ["iso", "aperture", "shutter_speed", "confidence"] ∧
        d ≠ ruleBasedPrediction ⟨[10, 20, 30]⟩) ∧
    predict none (.error "bad bytes") = .error "bad bytes" := by
  have hno : ¬ onnxOk none ⟨[10, 20, 30]⟩ := by
    rintro ⟨run, outs, d, h, -, -⟩; exact Option.noConfusion h
  have hpe : (onnxParse [1/4, 1/11, 1/8000]).isSome := by
    norm_num [onnxParse]
  obtain ⟨d, hd⟩ := Option.isSome_iff_exists.mp hpe
  have hok : onnxOk (some fun _ => .ok [1/4, 1/11, 1/8000]) ⟨[10, 20, 30]⟩ :=
    ⟨_, [1/4, 1/11, 1/8000], d, rfl, rfl, hd⟩
  exact ⟨⟨hno, (predict_onnx_or_fallback none ⟨[10, 20, 30]⟩).1 hno⟩,
         ⟨hok, (predict_onnx_or_fallback _ ⟨[10, 20, 30]⟩).2.1 hok⟩,
         (predict_onnx_or_fallback none ⟨[10, 20, 30]⟩).2.2.2.2 "bad bytes"⟩

/-- Setting a key makes it readable. -/
lemma dget_dset_same (k : String) (v : Val) (d : Dict) :
    dget k (dset k v d) = some v := by
  induction d with
  | nil => simp [dset, dget]
  | cons kv rest ih =>
    by_cases h : kv.1 = k
    · simp [dset, dget, h]
    · simp [dset, dget, h, ih]

/-- Setting one key leaves the others unchanged. -/
lemma dget_dset_ne (k k' : String) (v : Val) (d : Dict) (h : k' ≠ k) :
    dget k (dset k' v d) = dget k d := by
  induction d with
  | nil => simp [dset, dget, h]
  | cons kv rest ih =>
    by_cases hk : kv.1 = k'
    · simp [dset, dget, hk, h]
    · simp only [dset, hk, if_false, dget]
      by_cases hk2 : kv.1 = k <;> simp [hk2, ih]

/-- Every key of `dset k v d` is `k` or a key of `d`. -/
lemma mem_dkeys_dset (k k0 : String) (v : Val) (d : Dict)
    (h : k ∈ dkeys (dset k0 v d)) : k = k0 ∨ k ∈ dkeys d := by
  induction d with
  | nil => simpa [dset, dkeys] using h
  | cons kv rest ih =>
    by_cases hk : kv.1 = k0
    · simp only [dset, hk, if_true, dkeys, List.map_cons, List.mem_cons] at h ⊢
      rcases h with h | h
      · exact Or.inl h
      · exact Or.inr (Or.inr h)
    · simp only [dset, hk, if_false, dkeys, List.map_cons, List.mem_cons] at h ⊢
      rcases h with h | h
      · exact Or.inr (Or.inl h)
      · rcases ih h with h' | h'
        · exact Or.inl h'
        · exact Or.inr (Or.inr h')

/-- Every branch of the rule-based advisor carries the same five keys. -/
lemma ruleBasedSuggestions_keys (prompt : List Char)
    (cs : Option (List (String × String))) :
    dkeys (ruleBasedSuggestions prompt cs) =
      ["iso", "aperture", "shutter_speed", "explanation", "source"] := by
  unfold ruleBasedSuggestions
  dsimp only
  split_ifs <;> rfl

/-- Every branch of the rule-based advisor is tagged `rule-based`. -/
lemma ruleBasedSuggestions_source (prompt : List Char)
    (cs : Option (List (String × String))) :
    dget "source" (ruleBasedSuggestions prompt cs) = some (.str "rule-based") := by
  unfold ruleBasedSuggestions
  dsimp only
  split_ifs <;> rfl

/-- C2: `LLMAdvisor.suggest` returns a dictionary tagged `source = "llm"`
exactly when a client is configured and the chat call succeeds, and
otherwise returns the rule-based suggestion, which is tagged
`source = "rule-based"`; the LLM exception never escapes. -/
theorem suggest_llm_or_fallback (client : Option LLMCall) (prompt : List Char)
    (cs : Option (List (String × String))) :
    (¬ llmOk client prompt cs →
      suggest client prompt cs = ruleBasedSuggestions prompt cs) ∧
    (llmOk client prompt cs →
      dget "source" (suggest client prompt cs) = some (.str "llm")) ∧
    dget "source" (ruleBasedSuggestions prompt cs) = some (.str "rule-based") ∧
    (suggest client prompt cs = ruleBasedSuggestions prompt cs →
      ¬ llmOk client prompt cs) := by
  refine ⟨?_, ?_, ruleBasedSuggestions_source prompt cs, ?_⟩
  · intro hno
    cases client with
    | none => rfl
    | some call =>
      cases hc : call systemMessage (userMessageOf prompt cs) with
      | error e => simp [suggest, hc]
      | ok text => exact absurd ⟨call, text, rfl, hc⟩ hno
  · rintro ⟨call, text, rfl, hc⟩
    simp only [suggest, hc]
    exact dget_dset_same _ _ _
  · intro heq hok
    have h1 : dget "source" (suggest client prompt cs) = some (.str "llm") := by
      obtain ⟨call, text, rfl, hc⟩ := hok
      simp only [suggest, hc]
      exact dget_dset_same _ _ _
    rw [heq, ruleBasedSuggestions_source prompt cs] at h1
    exact absurd (Val.str.injEq _ _ ▸ Option.some_injective _ h1) (by decide)

/-- Witness for C2: no client falls back; a client returning text is
tagged `llm`. -/
theorem suggest_llm_or_fallback_witness :
    (¬ llmOk none "portrait".toList none ∧
      suggest none "portrait".toList none =
        ruleBasedSuggestions "portrait".toList none) ∧
    (llmOk (some fun _ _ => .ok "ISO 200") "portrait".toList none ∧
      dget "source" (suggest (some fun _ _ => .ok "ISO 200") "portrait".toList none) =
        some (.str "llm")) := by
  have hno : ¬ llmOk none "portrait".toList none := by
    rintro ⟨call, text, h, -⟩; exact Option.noConfusion h
  have hok : llmOk (some fun _ _ => .ok "ISO 200") "portrait".toList none :=
    ⟨_, "ISO 200", rfl, rfl⟩
  exact ⟨⟨hno, (suggest_llm_or_fallback none "portrait".toList none).1 hno⟩,
         ⟨hok, (suggest_llm_or_fallback _ "portrait".toList none).2.1 hok⟩⟩

/-- C8: the rule-based advisor always returns the five keys with
`source = "rule-based"`, and the profile is chosen by keyword matching in
the precedence order portrait, landscape, action, low-light, default — an
earlier match wins even when a later category also matches. -/
theorem rule_based_suggestions_precedence (prompt : List Char)
    (cs : Option (List (String × String))) :
    dkeys (ruleBasedSuggestions prompt cs) =
      ["iso", "aperture", "shutter_speed", "explanation", "source"] ∧
    dget "source" (ruleBasedSuggestions prompt cs) = some (.str "rule-based") ∧
    (portraitMatch (pyLower prompt) = true →
      ruleBasedSuggestions prompt cs = portraitProfile) ∧
    (portraitMatch (pyLower prompt) = false →
      landscapeMatch (pyLower prompt) = true →
      ruleBasedSuggestions prompt cs = landscapeProfile) ∧
    (portraitMatch (pyLower prompt) = false →
      landscapeMatch (pyLower prompt) = false →
      actionMatch (pyLower prompt) = true →
      ruleBasedSuggestions prompt cs = actionProfile) ∧
    (portraitMatch (pyLower prompt) = false →
      landscapeMatch (pyLower prompt) = false →
      actionMatch (pyLower prompt) = false →
      lowLightMatch (pyLower prompt) = true →
      ruleBasedSuggestions prompt cs = lowLightProfile) ∧
    (portraitMatch (pyLower prompt) = false →
      landscapeMatch (pyLower prompt) = false →
      actionMatch (pyLower prompt) = false →
      lowLightMatch (pyLower prompt) = false →
      ruleBasedSuggestions prompt cs = defaultProfile) := by
  refine ⟨ruleBasedSuggestions_keys prompt cs, ruleBasedSuggestions_source prompt cs,
    ?_, ?_, ?_, ?_, ?_⟩ <;> intros <;> simp_all [ruleBasedSuggestions]

/-- Witness for C8: a prompt matching both portrait and low-light
keywords receives the portrait profile (ISO 400, f/2.8, 1/125s). -/
theorem rule_based_suggestions_precedence_witness :
    portraitMatch (pyLower "portrait at night".toList) = true ∧
    lowLightMatch (pyLower "portrait at night".toList) = true ∧
    ruleBasedSuggestions "portrait at night".toList none = portraitProfile ∧
    dget "iso" portraitProfile = some (.int 400) ∧
    dget "aperture" portraitProfile = some (.str "f/2.8") ∧
    dget "shutter_speed" portraitProfile = some (.str "1/125s") := by
  refine ⟨by decide, by decide, ?_, rfl, rfl, rfl⟩
  exact (rule_based_suggestions_precedence "portrait at night".toList none).2.2.1
    (by decide)

/-- A run taken with `isDigit` is all digits. -/
lemma takeWhile_digits (l : List Char) :
    (l.takeWhile Char.isDigit).all Char.isDigit = true := by
  rw [List.all_eq_true]
  intro c hc
  exact List.mem_takeWhile_imp hc

/-- Shape of a group captured by the aperture regex at the head of the
text: nonempty digits, then optionally a dot and more digits. -/
lemma tryAp_shape {l g : List Char} (h : tryAp l = some g) :
    ∃ d1 r, g = d1 ++ r ∧ d1 ≠ [] ∧ d1.all Char.isDigit = true ∧
      (r = [] ∨ ∃ d2, r = '.' :: d2 ∧ d2.all Char.isDigit = true) := by
  unfold tryAp at h
  split at h
  case h_2 => exact absurd h (by simp)
  case h_1 rest =>
    dsimp only at h
    split at h
    · exact absurd h (by simp)
    case isFalse hne =>
      have hd1 : (rest.takeWhile Char.isDigit) ≠ [] := by
        simpa [List.isEmpty_iff] using hne
      split at h
      case h_1 r2 heq =>
        obtain rfl : _ = g := Option.some_injective _ h
        exact ⟨rest.takeWhile Char.isDigit, '.' :: r2.takeWhile Char.isDigit, rfl, hd1,
          takeWhile_digits rest, Or.inr ⟨r2.takeWhile Char.isDigit, rfl, takeWhile_digits r2⟩⟩
      case h_2 =>
        obtain rfl : _ = g := Option.some_injective _ h
        exact ⟨rest.takeWhile Char.isDigit, [], (List.append_nil _).symm, hd1,
          takeWhile_digits rest, Or.inl rfl⟩

/-- Shape of the group of the leftmost aperture-regex match. -/
lemma findAp_shape {l g : List Char} (h : findAp l = some g) :
    ∃ d1 r, g = d1 ++ r ∧ d1 ≠ [] ∧ d1.all Char.isDigit = true ∧
      (r = [] ∨ ∃ d2, r = '.' :: d2 ∧ d2.all Char.isDigit = true) := by
  induction l with
  | nil => exact absurd h (by simp [findAp])
  | cons c rest ih =>
    unfold findAp at h
    cases heq : tryAp (c :: rest) with
    | some g' =>
      simp only [heq, Option.some.injEq] at h
      subst h
      exact tryAp_shape heq
    | none =>
      simp only [heq] at h
      exact ih h

/-- Shape of a group captured by the shutter regex at the head of the
text: nonempty digits. -/
lemma trySh_shape {l g : List Char} (h : trySh l = some g) :
    g ≠ [] ∧ g.all Char.isDigit = true := by
  unfold trySh at h
  split at h
  case h_2 => exact absurd h (by simp)
  case h_1 rest =>
    dsimp only at h
    split at h
    · exact absurd h (by simp)
    case isFalse hne =>
      obtain rfl : _ = g := Option.some_injective _ h
      exact ⟨by simpa [List.isEmpty_iff] using hne, takeWhile_digits rest⟩

/-- Shape of the group of the leftmost shutter-regex match. -/
lemma findSh_shape {l g : List Char} (h : findSh l = some g) :
    g ≠ [] ∧ g.all Char.isDigit = true := by
  induction l with
  | nil => exact absurd h (by simp [findSh])
  | cons c rest ih =>
    unfold findSh at h
    cases heq : trySh (c :: rest) with
    | some g' =>
      simp only [heq, Option.some.injEq] at h
      subst h
      exact trySh_shape heq
    | none =>
      simp only [heq] at h
      exact ih h

/-- The ISO value found by the word loop is one of the seven standard
values. -/
lemma firstIsoWord_mem {text : List Char} {n : ℕ} (h : firstIsoWord text = some n) :
    n ∈ [100, 200, 400, 800, 1600, 3200, 6400] := by
  unfold firstIsoWord at h
  cases hf : (pySplit text).find? fun w =>
      pyIsdigit w && decide (digitsToNat w ∈ [100, 200, 400, 800, 1600, 3200, 6400]) with
  | none => rw [hf] at h; exact absurd h (by simp)
  | some w =>
    rw [hf] at h
    obtain rfl : digitsToNat w = n := by simpa using h
    have := List.find?_some hf
    simpa using (Bool.and_elim_right this)

/-- The ISO step only adds the key `iso`. -/
lemma mem_dkeys_isoStep {k : String} {t tl : List Char} {s : Dict}
    (h : k ∈ dkeys (isoStep t tl s)) : k = "iso" ∨ k ∈ dkeys s := by
  unfold isoStep at h
  split at h
  · split at h
    · exact mem_dkeys_dset _ _ _ _ h
    · exact Or.inr h
  · exact Or.inr h

/-- The aperture step only adds the key `aperture`. -/
lemma mem_dkeys_apStep {k : String} {tl : List Char} {s : Dict}
    (h : k ∈ dkeys (apStep tl s)) : k = "aperture" ∨ k ∈ dkeys s := by
  unfold apStep at h
  split at h
  · split at h
    · exact mem_dkeys_dset _ _ _ _ h
    · exact Or.inr h
  · exact Or.inr h

/-- The shutter step only adds the key `shutter_speed`. -/
lemma mem_dkeys_shStep {k : String} {t tl : List Char} {s : Dict}
    (h : k ∈ dkeys (shStep t tl s)) : k = "shutter_speed" ∨ k ∈ dkeys s := by
  unfold shStep at h
  split at h
  · split at h
    · exact mem_dkeys_dset _ _ _ _ h
    · exact Or.inr h
  · exact Or.inr h

/-- The ISO step leaves other keys alone. -/
lemma dget_isoStep_ne {k : String} (t tl : List Char) (s : Dict) (h : k ≠ "iso") :
    dget k (isoStep t tl s) = dget k s := by
  unfold isoStep
  split
  · split
    · exact dget_dset_ne _ _ _ _ (Ne.symm h)
    · rfl
  · rfl

/-- The aperture step leaves other keys alone. -/
lemma dget_apStep_ne {k : String} (tl : List Char) (s : Dict) (h : k ≠ "aperture") :
    dget k (apStep tl s) = dget k s := by
  unfold apStep
  split
  · split
    · exact dget_dset_ne _ _ _ _ (Ne.symm h)
    · rfl
  · rfl

/-- The shutter step leaves other keys alone. -/
lemma dget_shStep_ne {k : String} (t tl : List Char) (s : Dict) (h : k ≠ "shutter_speed") :
    dget k (shStep t tl s) = dget k s := by
  unfold shStep
  split
  · split
    · exact dget_dset_ne _ _ _ _ (Ne.symm h)
    · rfl
  · rfl

/-- What the ISO step can put under `iso`. -/
lemma dget_isoStep_iso (t tl : List Char) (s : Dict) :
    dget "iso" (isoStep t tl s) = dget "iso" s ∨
      ∃ n : ℕ, n ∈ [100, 200, 400, 800, 1600, 3200, 6400] ∧
        dget "iso" (isoStep t tl s) = some (.int (n : Int)) := by
  unfold isoStep
  split
  · cases hf : firstIsoWord t with
    | none => exact Or.inl rfl
    | some n => exact Or.inr ⟨n, firstIsoWord_mem hf, dget_dset_same _ _ _⟩
  · exact Or.inl rfl

/-- What the aperture step can put under `aperture`. -/
lemma dget_apStep_aperture (tl : List Char) (s : Dict) :
    dget "aperture" (apStep tl s) = dget "aperture" s ∨
      ∃ g, findAp tl = some g ∧
        dget "aperture" (apStep tl s) = some (.str ("f/" ++ g.asString)) := by
  unfold apStep
  split
  · cases hf : findAp tl with
    | none => exact Or.inl rfl
    | some g => exact Or.inr ⟨g, rfl, dget_dset_same _ _ _⟩
  · exact Or.inl rfl

/-- What the shutter step can put under `shutter_speed`. -/
lemma dget_shStep_shutter (t tl : List Char) (s : Dict) :
    dget "shutter_speed" (shStep t tl s) = dget "shutter_speed" s ∨
      ∃ g, findSh t = some g ∧
        dget "shutter_speed" (shStep t tl s) =
          some (.str ("1/" ++ g.asString ++ "s")) := by
  unfold shStep
  split
  · cases hf : findSh t with
    | none => exact Or.inl rfl
    | some g => exact Or.inr ⟨g, rfl, dget_dset_same _ _ _⟩
  · exact Or.inl rfl

/-- C9: `_parse_llm_response` only ever emits the keys iso, aperture and
shutter_speed, and each value is well-formed: iso is one of the seven
standard ISO values, aperture is `f/` followed by digits with an optional
dot and more digits, and shutter_speed is `1/` followed by nonempty
digits and `s`. -/
theorem parse_llm_response_wellformed (text : List Char) :
    (∀ k ∈ dkeys (parseLLMResponse text),
      k ∈ (["iso", "aperture", "shutter_speed"] : List String)) ∧
    (∀ v, dget "iso" (parseLLMResponse text) = some v →
      ∃ n : ℕ, v = .int (n : Int) ∧ n ∈ [100, 200, 400, 800, 1600, 3200, 6400]) ∧
    (∀ v, dget "aperture" (parseLLMResponse text) = some v →
      ∃ d1 r, v = .str ("f/" ++ (d1 ++ r).asString) ∧ d1 ≠ [] ∧
        d1.all Char.isDigit = true ∧
        (r = [] ∨ ∃ d2, r = '.' :: d2 ∧ d2.all Char.isDigit = true)) ∧
    (∀ v, dget "shutter_speed" (parseLLMResponse text) = some v →
      ∃ d, v = .str ("1/" ++ d.asString ++ "s") ∧ d ≠ [] ∧
        d.all Char.isDigit = true) := by
  unfold parseLLMResponse
  refine ⟨?_, ?_, ?_, ?_⟩
  · intro k hk
    rcases mem_dkeys_shStep hk with rfl | hk
    · simp
    rcases mem_dkeys_apStep hk with rfl | hk
    · simp
    rcases mem_dkeys_isoStep hk with rfl | hk
    · simp
    · simp [dkeys] at hk
  · intro v hv
    rw [dget_shStep_ne _ _ _ (by decide), dget_apStep_ne _ _ (by decide)] at hv
    rcases dget_isoStep_iso text (pyLower text) [] with h | ⟨n, hn, h⟩
    · rw [h] at hv; exact absurd hv (by simp [dget])
    · rw [h] at hv
      exact ⟨n, (Option.some_injective _ hv).symm, hn⟩
  · intro v hv
    rw [dget_shStep_ne _ _ _ (by decide)] at hv
    rcases dget_apStep_aperture (pyLower text) _ with h | ⟨g, hg, h⟩
    · rw [h, dget_isoStep_ne _ _ _ (by decide)] at hv
      exact absurd hv (by simp [dget])
    · rw [h] at hv
      obtain ⟨d1, r, rfl, hd1, hall, hr⟩ := findAp_shape hg
      exact ⟨d1, r, (Option.some_injective _ hv).symm, hd1, hall, hr⟩
  · intro v hv
    rcases dget_shStep_shutter text (pyLower text) _ with h | ⟨g, hg, h⟩
    · rw [h, dget_apStep_ne _ _ (by decide), dget_isoStep_ne _ _ _ (by decide)] at hv
      exact absurd hv (by simp [dget])
    · rw [h] at hv
      obtain ⟨hne, hall⟩ := findSh_shape hg
      exact ⟨g, (Option.some_injective _ hv).symm, hne, hall⟩

/-- Witness for C9 on a concrete LLM response. -/
theorem parse_llm_response_wellformed_witness :
    (dget "iso" (parseLLMResponse "Use iso 400 with f/2.8 at 1/250s".toList) =
        some (.int 400) ∧
      ∃ n : ℕ, Val.int 400 = .int (n : Int) ∧
        n ∈ [100, 200, 400, 800, 1600, 3200, 6400]) ∧
    (dget "aperture" (parseLLMResponse "Use iso 400 with f/2.8 at 1/250s".toList) =
        some (.str "f/2.8") ∧
      ∃ d1 r, Val.str "f/2.8" = .str ("f/" ++ (d1 ++ r).asString) ∧ d1 ≠ [] ∧
        d1.all Char.isDigit = true ∧
        (r = [] ∨ ∃ d2, r = '.' :: d2 ∧ d2.all Char.isDigit = true)) ∧
    (dget "shutter_speed" (parseLLMResponse "Use iso 400 with f/2.8 at 1/250s".toList) =
        some (.str "1/250s") ∧
      ∃ d, Val.str "1/250s" = .str ("1/" ++ d.asString ++ "s") ∧ d ≠ [] ∧
        d.all Char.isDigit = true) := by
  have h := parse_llm_response_wellformed "Use iso 400 with f/2.8 at 1/250s".toList
  have hiso : dget "iso" (parseLLMResponse "Use iso 400 with f/2.8 at 1/250s".toList) =
      some (.int 400) := by decide
  have hap : dget "aperture"
      (parseLLMResponse "Use iso 400 with f/2.8 at 1/250s".toList) =
      some (.str "f/2.8") := by decide
  have hsh : dget "shutter_speed"
      (parseLLMResponse "Use iso 400 with f/2.8 at 1/250s".toList) =
      some (.str "1/250s") := by decide
  exact ⟨⟨hiso, h.2.1 _ hiso⟩, ⟨hap, h.2.2.1 _ hap⟩, ⟨hsh, h.2.2.2 _ hsh⟩⟩

/-- Counterexample to C3: when the library open of the image fails,
`extract_metadata` does not return any fallback result — it raises the
wrapped exception. -/
theorem extract_metadata_no_fallback :
    extractMetadata (.error "cannot identify image file") =
      .error "Failed to extract metadata: cannot identify image file" ∧
    (extractMetadata (.error "cannot identify image file")).isOk = false :=
  ⟨rfl, rfl⟩

/-- C3 (amended): on any failure of the primary library operation,
`extract_metadata` re-raises it as
`Exception("Failed to extract metadata: ...")`, and the `/metadata`
endpoint converts that exception into an HTTP 500 error instead of a
fallback result. -/
theorem extract_metadata_error_propagation (e : String) :
    extractMetadata (.error e) = .error ("Failed to extract metadata: " ++ e) ∧
    getMetadata (.error e) = .error (500, "Failed to extract metadata: " ++ e) :=
  ⟨rfl, rfl⟩

/-- The empty EXIF dict parses to nothing. -/
lemma parseCameraSettings_nil : parseCameraSettings [] = none := rfl

/-- Counterexample to C6: an EXIF dict that yields ISO, aperture and
shutter speed without any conversion error, yet `parse_camera_settings`
returns `None`, because the FocalLength conversion fails and aborts the
whole `try` block. -/
theorem parse_camera_settings_focal_counterexample :
    tagStep [("ISOSpeedRatings", .num 100), ("FNumber", .num 3),
        ("ExposureTime", .num 1), ("FocalLength", .rawStr "abc")]
        "ISOSpeedRatings" pyFloat = .ok (some 100) ∧
    tagStep [("ISOSpeedRatings", .num 100), ("FNumber", .num 3),
        ("ExposureTime", .num 1), ("FocalLength", .rawStr "abc")]
        "FNumber" exifRatio = .ok (some 3) ∧
    tagStep [("ISOSpeedRatings", .num 100), ("FNumber", .num 3),
        ("ExposureTime", .num 1), ("FocalLength", .rawStr "abc")]
        "ExposureTime" exifRatio = .ok (some 1) ∧
    parseCameraSettings [("ISOSpeedRatings", .num 100), ("FNumber", .num 3),
        ("ExposureTime", .num 1), ("FocalLength", .rawStr "abc")] = none :=
  ⟨rfl, rfl, rfl, by decide⟩

/-- C6 (amended): `parse_camera_settings` returns a settings dictionary
iff the EXIF data yields all three of ISO, aperture and shutter speed
without a conversion error AND the FocalLength conversion, when the tag
is present, raises no error either; `create_dataset_from_images` adds a
row exactly for the images whose EXIF data exists and parses, recording
`focal_length` as 0 when absent. -/
theorem parse_camera_settings_iff_and_dataset :
    (∀ exif : ExifDict, (parseCameraSettings exif).isSome ↔
      ((∃ q, tagStep exif "ISOSpeedRatings" pyFloat = .ok (some q)) ∧
       (∃ q, tagStep exif "FNumber" exifRatio = .ok (some q)) ∧
       (∃ q, tagStep exif "ExposureTime" exifRatio = .ok (some q)) ∧
       tagStep exif "FocalLength" exifRatio ≠ .error ())) ∧
    (∀ images : List (String × Option ExifDict),
      createDataset images = images.filterMap fun pe =>
        pe.2.bind fun exif => (parseCameraSettings exif).map fun st =>
          { image_path := pe.1, iso := st.iso, aperture := st.aperture,
            shutter_speed := st.shutter_speed,
            focal_length := st.focal_length.getD 0 }) := by
  constructor
  · intro exif
    constructor
    · intro hsome
      unfold parseCameraSettings at hsome
      cases h1 : tagStep exif "ISOSpeedRatings" pyFloat with
      | error u => cases u; rw [h1] at hsome; simp at hsome
      | ok o1 =>
        rw [h1] at hsome
        cases h2 : tagStep exif "FNumber" exifRatio with
        | error u => cases u; rw [h2] at hsome; simp at hsome
        | ok o2 =>
          rw [h2] at hsome
          cases h3 : tagStep exif "ExposureTime" exifRatio with
          | error u => cases u; rw [h3] at hsome; simp at hsome
          | ok o3 =>
            rw [h3] at hsome
            cases h4 : tagStep exif "FocalLength" exifRatio with
            | error u => cases u; rw [h4] at hsome; simp at hsome
            | ok o4 =>
              rw [h4] at hsome
              cases o1 with
              | none => simp at hsome
              | some q1 =>
                cases o2 with
                | none => simp at hsome
                | some q2 =>
                  cases o3 with
                  | none => simp at hsome
                  | some q3 =>
                    exact ⟨⟨q1, rfl⟩, ⟨q2, rfl⟩, ⟨q3, rfl⟩,
                      fun h => Except.noConfusion h⟩
    · rintro ⟨⟨q1, h1⟩, ⟨q2, h2⟩, ⟨q3, h3⟩, h4⟩
      unfold parseCameraSettings
      rw [h1, h2, h3]
      cases h4' : tagStep exif "FocalLength" exifRatio with
      | error u => cases u; exact absurd h4' h4
      | ok o4 => simp [h4']
  · intro images
    have go : ∀ (imgs : List (String × Option ExifDict)) (acc : List DataRow),
        imgs.foldl
          (fun data pe =>
            match pe.2 with
            | none => data
            | some exif =>
              if exif.isEmpty then data
              else
                match parseCameraSettings exif with
                | none => data
                | some s =>
                  data ++ [{ image_path := pe.1, iso := s.iso, aperture := s.aperture,
                             shutter_speed := s.shutter_speed,
                             focal_length := s.focal_length.getD 0 }]) acc =
        acc ++ (imgs.filterMap fun pe =>
          pe.2.bind fun exif => (parseCameraSettings exif).map fun st =>
            { image_path := pe.1, iso := st.iso, aperture := st.aperture,
              shutter_speed := st.shutter_speed,
              focal_length := st.focal_length.getD 0 }) := by
      intro imgs
      induction imgs with
      | nil => intro acc; simp
      | cons pe rest ih =>
        intro acc
        obtain ⟨p, e⟩ := pe
        cases e with
        | none => simpa using ih acc
        | some exif =>
          by_cases he : exif.isEmpty
          · have hnil : exif = [] := by simpa [List.isEmpty_iff] using he
            subst hnil
            simpa [parseCameraSettings_nil] using ih acc
          · cases hp : parseCameraSettings exif with
            | none =>
              simp only [List.foldl_cons, List.filterMap_cons, he, hp,
                Option.some_bind, Option.map_none, if_false]
              simpa using ih acc
            | some st =>
              simp only [List.foldl_cons, List.filterMap_cons, he, hp,
                Option.some_bind, Option.map_some, if_false]
              rw [ih]
              simp [List.append_assoc]
    exact go images []

/-- Witness for C6 (amended) on a concrete EXIF dict without a
FocalLength tag. -/
theorem parse_camera_settings_iff_and_dataset_witness :
    ((∃ q, tagStep [("ISOSpeedRatings", .num 100), ("FNumber", .num 3),
        ("ExposureTime", .num 1)] "ISOSpeedRatings" pyFloat = .ok (some q)) ∧
     (∃ q, tagStep [("ISOSpeedRatings", .num 100), ("FNumber", .num 3),
        ("ExposureTime", .num 1)] "FNumber" exifRatio = .ok (some q)) ∧
     (∃ q, tagStep [("ISOSpeedRatings", .num 100), ("FNumber", .num 3),
        ("ExposureTime", .num 1)] "ExposureTime" exifRatio = .ok (some q)) ∧
     tagStep [("ISOSpeedRatings", .num 100), ("FNumber", .num 3),
        ("ExposureTime", .num 1)] "FocalLength" exifRatio ≠ .error ()) ∧
    (parseCameraSettings [("ISOSpeedRatings", .num 100), ("FNumber", .num 3),
        ("ExposureTime", .num 1)]).isSome ∧
    createDataset [("a.jpg", some [("ISOSpeedRatings", .num 100), ("FNumber", .num 3),
        ("ExposureTime", .num 1)])] =
      [{ image_path := "a.jpg", iso := 100, aperture := 3, shutter_speed := 1,
         focal_length := 0 }] := by
  have hcond : ((∃ q, tagStep [("ISOSpeedRatings", .num 100), ("FNumber", .num 3),
        ("ExposureTime", .num 1)] "ISOSpeedRatings" pyFloat = .ok (some q)) ∧
     (∃ q, tagStep [("ISOSpeedRatings", .num 100), ("FNumber", .num 3),
        ("ExposureTime", .num 1)] "FNumber" exifRatio = .ok (some q)) ∧
     (∃ q, tagStep [("ISOSpeedRatings", .num 100), ("FNumber", .num 3),
        ("ExposureTime", .num 1)] "ExposureTime" exifRatio = .ok (some q)) ∧
     tagStep [("ISOSpeedRatings", .num 100), ("FNumber", .num 3),
        ("ExposureTime", .num 1)] "FocalLength" exifRatio ≠ .error ()) :=
    ⟨⟨100, rfl⟩, ⟨3, rfl⟩, ⟨1, rfl⟩, fun h => Except.noConfusion h⟩
  refine ⟨hcond, (parse_camera_settings_iff_and_dataset.1 _).mpr hcond, ?_⟩
  rw [parse_camera_settings_iff_and_dataset.2]
  decide

/-- Writing a column makes it readable. -/
lemma getCol_setCol_same (c : String) (vs : List ℚ) (df : DFrame) :
    getCol c (setCol c vs df) = some vs := by
  induction df with
  | nil => simp [setCol, getCol]
  | cons kv rest ih =>
    by_cases h : kv.1 = c
    · simp [setCol, getCol, h]
    · simp [setCol, getCol, h, ih]

/-- Writing one column leaves the others unchanged. -/
lemma getCol_setCol_ne (c c' : String) (vs : List ℚ) (df : DFrame) (h : c ≠ c') :
    getCol c (setCol c' vs df) = getCol c df := by
  induction df with
  | nil => simp [setCol, getCol, Ne.symm h]
  | cons kv rest ih =>
    by_cases hk : kv.1 = c'
    · simp [setCol, getCol, hk, Ne.symm h]
    · simp only [setCol, hk, if_false, getCol]
      by_cases hk2 : kv.1 = c <;> simp [hk2, ih]

/-- Columns not visited by the normalization loop keep their value in the
working frame. -/
lemma foldl_normStep_not_mem (df : DFrame) (cs : List String)
    (st : DFrame × NormParams) (c : String) (h : c ∉ cs) :
    getCol c (cs.foldl (normStep df) st).1 = getCol c st.1 := by
  induction cs generalizing st with
  | nil => rfl
  | cons c0 rest ih =>
    have hne : c ≠ c0 := fun hcc => h (hcc ▸ List.mem_cons_self c0 rest)
    have hrest : c ∉ rest := fun hr => h (List.mem_cons_of_mem c0 hr)
    rw [List.foldl_cons, ih _ hrest]
    unfold normStep
    cases getCol c0 df with
    | none => rfl
    | some vs => exact getCol_setCol_ne _ _ _ _ hne

/-- A column visited exactly once by the normalization loop holds the
rescaled values of the original column, or keeps its value when the
original frame lacks it. -/
lemma foldl_normStep_mem (df : DFrame) (cs : List String)
    (st : DFrame × NormParams) (c : String) (hnd : cs.Nodup) (hmem : c ∈ cs) :
    getCol c (cs.foldl (normStep df) st).1 =
      match getCol c df with
      | none => getCol c st.1
      | some vs =>
        some (vs.map fun v => (v - colMin vs) / (colMax vs - colMin vs + 1/100000000)) := by
  induction cs generalizing st with
  | nil => exact absurd hmem (List.not_mem_nil c)
  | cons c0 rest ih =>
    have hnd0 : c0 ∉ rest := (List.nodup_cons.mp hnd).1
    have hndr : rest.Nodup := (List.nodup_cons.mp hnd).2
    rw [List.foldl_cons]
    by_cases hc : c = c0
    · subst hc
      rw [foldl_normStep_not_mem df rest _ c hnd0]
      unfold normStep
      cases hg : getCol c df with
      | none => rfl
      | some vs => exact getCol_setCol_same _ _ _
    · have hr : c ∈ rest := (List.mem_cons.mp hmem).resolve_left hc
      rw [ih _ hndr hr]
      cases hg : getCol c df with
      | none =>
        unfold normStep
        cases getCol c0 df with
        | none => rfl
        | some ws => exact getCol_setCol_ne _ _ _ _ hc
      | some vs => rfl

/-- The recorded parameters are the min/max of every settings column
present, in loop order. -/
lemma foldl_normStep_params (df : DFrame) (cs : List String)
    (st : DFrame × NormParams) :
    (cs.foldl (normStep df) st).2 =
      st.2 ++ cs.filterMap (fun c => (getCol c df).map fun vs =>
        (c, (colMin vs, colMax vs))) := by
  induction cs generalizing st with
  | nil => simp
  | cons c0 rest ih =>
    rw [List.foldl_cons, ih]
    unfold normStep
    cases hg : getCol c0 df with
    | none => simp [hg]
    | some vs => simp [hg]

/-- Folding `min` only goes down. -/
lemma foldl_min_le_init (xs : List ℚ) (a : ℚ) : xs.foldl min a ≤ a := by
  induction xs generalizing a with
  | nil => exact le_refl a
  | cons x xs ih => exact le_trans (ih (min a x)) (min_le_left a x)

/-- Folding `min` goes below every member. -/
lemma foldl_min_le_mem {v : ℚ} {xs : List ℚ} (a : ℚ) (h : v ∈ xs) :
    xs.foldl min a ≤ v := by
  induction xs generalizing a with
  | nil => exact absurd h (List.not_mem_nil v)
  | cons x xs ih =>
    rcases List.mem_cons.mp h with rfl | hv
    · exact le_trans (foldl_min_le_init xs (min a v)) (min_le_right a v)
    · exact ih (a := min a x) hv

/-- Folding `max` only goes up. -/
lemma le_foldl_max_init (xs : List ℚ) (a : ℚ) : a ≤ xs.foldl max a := by
  induction xs generalizing a with
  | nil => exact le_refl a
  | cons x xs ih => exact le_trans (le_max_left a x) (ih (max a x))

/-- Folding `max` goes above every member. -/
lemma le_foldl_max_mem {v : ℚ} {xs : List ℚ} (a : ℚ) (h : v ∈ xs) :
    v ≤ xs.foldl max a := by
  induction xs generalizing a with
  | nil => exact absurd h (List.not_mem_nil v)
  | cons x xs ih =>
    rcases List.mem_cons.mp h with rfl | hv
    · exact le_trans (le_max_right a v) (le_foldl_max_init xs (max a v))
    · exact ih (a := max a x) hv

/-- The column minimum is below every member. -/
lemma colMin_le_of_mem {v : ℚ} {vs : List ℚ} (h : v ∈ vs) : colMin vs ≤ v := by
  cases vs with
  | nil => exact absurd h (List.not_mem_nil v)
  | cons x xs =>
    rcases List.mem_cons.mp h with rfl | hv
    · exact foldl_min_le_init xs v
    · exact foldl_min_le_mem x hv

/-- The column maximum is above every member. -/
lemma le_colMax_of_mem {v : ℚ} {vs : List ℚ} (h : v ∈ vs) : v ≤ colMax vs := by
  cases vs with
  | nil => exact absurd h (List.not_mem_nil v)
  | cons x xs =>
    rcases List.mem_cons.mp h with rfl | hv
    · exact le_foldl_max_init xs v
    · exact le_foldl_max_mem x hv

/-- C7: `normalize_settings` rescales every settings column present by
`(v - min) / (max - min + 1e-8)`, every rescaled value lies in [0, 1],
and the returned parameters record each rescaled column's original min
and max. -/
theorem normalize_settings_bounds (df : DFrame) :
    (∀ c vs, c ∈ settingsCols → getCol c df = some vs →
      getCol c (normalizeSettings df).1 =
        some (vs.map fun v => (v - colMin vs) / (colMax vs - colMin vs + 1/100000000)) ∧
      ∀ v ∈ vs, 0 ≤ (v - colMin vs) / (colMax vs - colMin vs + 1/100000000) ∧
        (v - colMin vs) / (colMax vs - colMin vs + 1/100000000) ≤ 1) ∧
    (normalizeSettings df).2 = settingsCols.filterMap
      (fun c => (getCol c df).map fun vs => (c, (colMin vs, colMax vs))) := by
  constructor
  · intro c vs hc hg
    have hnd : settingsCols.Nodup := by decide
    constructor
    · rw [normalizeSettings, foldl_normStep_mem df settingsCols (df, []) c hnd hc, hg]
    · intro v hv
      have hmin : colMin vs ≤ v := colMin_le_of_mem hv
      have hmax : v ≤ colMax vs := le_colMax_of_mem hv
      have hden : 0 < colMax vs - colMin vs + 1/100000000 := by
        have : colMin vs ≤ colMax vs := le_trans hmin hmax
        linarith
      constructor
      · exact div_nonneg (by linarith) (le_of_lt hden)
      · rw [div_le_one hden]
        linarith
  · rw [normalizeSettings, foldl_normStep_params df settingsCols (df, [])]
    rfl

/-- Witness for C7 on a concrete frame. -/
theorem normalize_settings_bounds_witness :
    ("iso" ∈ settingsCols ∧
      getCol "iso" [("iso", [1, 3]), ("name", [7])] = some [1, 3]) ∧
    (getCol "iso" (normalizeSettings [("iso", [1, 3]), ("name", [7])]).1 =
      some ([1, 3].map fun v =>
        (v - colMin [1, 3]) / (colMax [1, 3] - colMin [1, 3] + 1/100000000)) ∧
      ∀ v ∈ ([1, 3] : List ℚ),
        0 ≤ (v - colMin [1, 3]) / (colMax [1, 3] - colMin [1, 3] + 1/100000000) ∧
        (v - colMin [1, 3]) / (colMax [1, 3] - colMin [1, 3] + 1/100000000) ≤ 1) := by
  have hg : getCol "iso" [("iso", [1, 3]), ("name", [7])] = some [1, 3] := rfl
  exact ⟨⟨by decide, hg⟩,
    (normalize_settings_bounds [("iso", [1, 3]), ("name", [7])]).1 "iso" [1, 3]
      (by decide) hg⟩

/-- C10: the returned frame of `normalize_settings` agrees with the input
frame on every column other than the four settings columns (and the input
frame itself is never written, the loop writing only to the copy). -/
theorem normalize_settings_preserves_other_columns (df : DFrame) (c : String)
    (h : c ∉ settingsCols) :
    getCol c (normalizeSettings df).1 = getCol c df :=
  foldl_normStep_not_mem df settingsCols (df, []) c h

/-- Witness for C10 on a concrete frame with an extra column. -/
theorem normalize_settings_preserves_other_columns_witness :
    "name" ∉ settingsCols ∧
    getCol "name" (normalizeSettings [("iso", [1, 3]), ("name", [7])]).1 =
      getCol "name" [("iso", [1, 3]), ("name", [7])] :=
  ⟨by decide, normalize_settings_preserves_other_columns
    [("iso", [1, 3]), ("name", [7])] "name" (by decide)⟩

/-- Counterexample to C5: ratios that sum to 1 but include a negative
value pass the assert, yet Python's negative-slice semantics make row 0
appear in both the training and the test outputs — the result is not a
partition. -/
theorem split_dataset_not_partition :
    |(-(1 : ℚ)/2) + 1/2 + 1 - 1| < 1/1000000 ∧
    (id [0, 1, 2, 3] : List ℕ).Perm [0, 1, 2, 3] ∧
    splitDataset id [0, 1, 2, 3] (-(1 : ℚ)/2) (1/2) 1 =
      some ([0, 1], [], [0, 1, 2, 3]) ∧
    ¬ (([0, 1] : List ℕ).count 0 + ([] : List ℕ).count 0 +
        ([0, 1, 2, 3] : List ℕ).count 0 = 1) := by
  refine ⟨by norm_num, List.Perm.refl _, ?_, by decide⟩
  have h1 : pyInt (((4 : ℕ) : ℚ) * (-(1 : ℚ)/2)) = -2 := by
    norm_num [pyInt]
  have h2 : pyInt (((4 : ℕ) : ℚ) * ((1 : ℚ)/2)) = 2 := by
    norm_num [pyInt]
  unfold splitDataset
  rw [if_pos (by norm_num)]
  show some
      (pySliceTo [0, 1, 2, 3] (pyInt (((4 : ℕ) : ℚ) * (-(1 : ℚ)/2))),
       pySlice [0, 1, 2, 3] (pyInt (((4 : ℕ) : ℚ) * (-(1 : ℚ)/2)))
         (pyInt (((4 : ℕ) : ℚ) * (-(1 : ℚ)/2)) + pyInt (((4 : ℕ) : ℚ) * ((1 : ℚ)/2))),
       pySliceFrom [0, 1, 2, 3]
         (pyInt (((4 : ℕ) : ℚ) * (-(1 : ℚ)/2)) + pyInt (((4 : ℕ) : ℚ) * ((1 : ℚ)/2)))) =
    some ([0, 1], [], [0, 1, 2, 3])
  rw [h1, h2]
  decide

/-- C5 (amended): with nonnegative train and validation ratios satisfying
`train_ratio + val_ratio ≤ 1` (and the asserted sum condition),
`split_dataset` returns the first `⌊n*train⌋` shuffled rows, the next
`⌊n*val⌋`, and the remainder; the three outputs concatenate back to the
shuffled frame and partition the input rows counting multiplicity. -/
theorem split_dataset_partition {α : Type} [DecidableEq α] (df : List α)
    (shuffle : List α → List α) (t v s : ℚ) (hperm : (shuffle df).Perm df)
    (hsum : |t + v + s - 1| < 1/1000000) (ht : 0 ≤ t) (hv : 0 ≤ v)
    (htv : t + v ≤ 1) :
    ∃ tr va te, splitDataset shuffle df t v s = some (tr, va, te) ∧
      tr = (shuffle df).take (⌊((df.length : ℚ)) * t⌋).toNat ∧
      va = ((shuffle df).drop (⌊((df.length : ℚ)) * t⌋).toNat).take
            (⌊((df.length : ℚ)) * v⌋).toNat ∧
      te = (shuffle df).drop
            ((⌊((df.length : ℚ)) * t⌋).toNat + (⌊((df.length : ℚ)) * v⌋).toNat) ∧
      tr.length = (⌊((df.length : ℚ)) * t⌋).toNat ∧
      va.length = (⌊((df.length : ℚ)) * v⌋).toNat ∧
      tr ++ va ++ te = shuffle df ∧
      ∀ x, tr.count x + va.count x + te.count x = df.count x := by
  have hlen : (shuffle df).length = df.length := hperm.length_eq
  set l := shuffle df with hl
  set n := df.length with hn
  have hnt : (0 : ℚ) ≤ (n : ℚ) * t := mul_nonneg (Nat.cast_nonneg n) ht
  have hnv : (0 : ℚ) ≤ (n : ℚ) * v := mul_nonneg (Nat.cast_nonneg n) hv
  set a : ℤ := ⌊(n : ℚ) * t⌋ with ha
  set b : ℤ := ⌊(n : ℚ) * v⌋ with hb
  have ha0 : 0 ≤ a := Int.le_floor.mpr (by exact_mod_cast hnt)
  have hb0 : 0 ≤ b := Int.le_floor.mpr (by exact_mod_cast hnv)
  have hab : a + b ≤ (n : ℤ) := by
    have h1 : ((a + b : ℤ) : ℚ) ≤ (n : ℚ) * t + (n : ℚ) * v := by
      push_cast
      exact add_le_add (Int.floor_le _) (Int.floor_le _)
    have h2 : (n : ℚ) * t + (n : ℚ) * v ≤ (n : ℚ) := by
      have := mul_le_mul_of_nonneg_left htv (Nat.cast_nonneg (α := ℚ) n)
      nlinarith
    exact_mod_cast le_trans h1 h2
  have haN : (a.toNat : ℤ) = a := Int.toNat_of_nonneg ha0
  have hbN : (b.toNat : ℤ) = b := Int.toNat_of_nonneg hb0
  have habN : a.toNat + b.toNat ≤ n := by omega
  have haNn : a.toNat ≤ n := by omega
  have hpt : pyInt ((l.length : ℚ) * t) = a := by
    rw [hlen, pyInt, if_pos hnt]
  have hpv : pyInt ((l.length : ℚ) * v) = b := by
    rw [hlen, pyInt, if_pos hnv]
  have hbound_a : pyBound l.length a = a.toNat := by
    unfold pyBound
    rw [if_neg (by omega)]
    have : a.toNat ≤ l.length := by omega
    omega
  have hbound_ab : pyBound l.length (a + b) = a.toNat + b.toNat := by
    unfold pyBound
    rw [if_neg (by omega)]
    have : (a + b).toNat = a.toNat + b.toNat := by omega
    rw [this]
    have : a.toNat + b.toNat ≤ l.length := by omega
    omega
  refine ⟨pySliceTo l (pyInt ((l.length : ℚ) * t)),
          pySlice l (pyInt ((l.length : ℚ) * t))
            (pyInt ((l.length : ℚ) * t) + pyInt ((l.length : ℚ) * v)),
          pySliceFrom l (pyInt ((l.length : ℚ) * t) + pyInt ((l.length : ℚ) * v)),
          ?_, ?_, ?_, ?_, ?_, ?_, ?_, ?_⟩
  · unfold splitDataset
    rw [if_pos hsum]
  · rw [hpt]
    unfold pySliceTo
    rw [hbound_a]
  · rw [hpt, hpv]
    unfold pySlice
    rw [hbound_a, hbound_ab, List.drop_take]
    congr 1
    omega
  · rw [hpt, hpv]
    unfold pySliceFrom
    rw [hbound_ab]
  · rw [hpt]
    unfold pySliceTo
    rw [hbound_a, List.length_take, hlen]
    omega
  · rw [hpt, hpv]
    unfold pySlice
    rw [hbound_a, hbound_ab, List.drop_take, List.length_take, List.length_drop,
      hlen]
    omega
  · rw [hpt, hpv]
    unfold pySliceTo pySlice pySliceFrom
    rw [hbound_a, hbound_ab, List.drop_take]
    have hsplit2 : (l.drop a.toNat).take (a.toNat + b.toNat - a.toNat) ++
        l.drop (a.toNat + b.toNat) =
        l.drop a.toNat := by
      have : l.drop (a.toNat + b.toNat) = (l.drop a.toNat).drop b.toNat := by
        rw [List.drop_drop, Nat.add_comm]
      rw [this]
      have hmin : a.toNat + b.toNat - a.toNat = b.toNat := by omega
      rw [hmin]
      exact List.take_append_drop _ _
    rw [List.append_assoc, hsplit2, List.take_append_drop]
  · intro x
    have hconcat : (l.take a.toNat ++ ((l.drop a.toNat).take (a.toNat + b.toNat - a.toNat) ++
        l.drop (a.toNat + b.toNat))) = l := by
      have : l.drop (a.toNat + b.toNat) = (l.drop a.toNat).drop b.toNat := by
        rw [List.drop_drop, Nat.add_comm]
      rw [this]
      have hmin : a.toNat + b.toNat - a.toNat = b.toNat := by omega
      rw [hmin, List.take_append_drop, List.take_append_drop]
    rw [hpt, hpv]
    unfold pySliceTo pySlice pySliceFrom
    rw [hbound_a, hbound_ab, List.drop_take]
    have hcl := congrArg (List.count x) hconcat
    rw [List.count_append, List.count_append] at hcl
    have hcd := hperm.count_eq x
    omega

/-- Witness for C5 (amended) on a concrete four-row frame. -/
theorem split_dataset_partition_witness :
    ((id [10, 20, 30, 40] : List ℕ).Perm [10, 20, 30, 40] ∧
      |(1 : ℚ)/2 + 1/4 + 1/4 - 1| < 1/1000000 ∧ (0 : ℚ) ≤ 1/2 ∧ (0 : ℚ) ≤ 1/4 ∧
      (1 : ℚ)/2 + 1/4 ≤ 1) ∧
    ∃ tr va te, splitDataset id [10, 20, 30, 40] ((1 : ℚ)/2) (1/4) (1/4) =
        some (tr, va, te) ∧ tr ++ va ++ te = id [10, 20, 30, 40] ∧
      ∀ x, tr.count x + va.count x + te.count x = ([10, 20, 30, 40] : List ℕ).count x := by
  refine ⟨⟨List.Perm.refl _, by norm_num, by norm_num, by norm_num, by norm_num⟩, ?_⟩
  obtain ⟨tr, va, te, hsp, -, -, -, -, -, hcat, hcount⟩ :=
    split_dataset_partition [10, 20, 30, 40] id ((1 : ℚ)/2) (1/4) (1/4)
      (List.Perm.refl _) (by norm_num) (by norm_num) (by norm_num) (by norm_num)
  exact ⟨tr, va, te, hsp, hcat, hcount⟩

end ShutterSense
